import Mathlib

/-!
Verification development for the job-sync pipeline in `src/main.py`.

The Python program is shallowly embedded: pure fragments become Lean
functions, the effectful run (`main`) becomes an explicit state-passing
function over an environment that supplies the outcomes of the external
collaborators (connectors, the embedding/scoring service, the generation
service).  Machine-level concerns that the claims do not touch (actual
sockets, asyncio scheduling) are abstracted into those oracle outcomes;
everything the claims do touch (control flow, the exact comparisons,
string formatting, file-store updates) is translated operation by
operation from the source.
-/

/-- Decidable equality on `Except`, needed to evaluate the embedded
fallible computations on concrete inputs. -/
def exceptDecEq {e a : Type} [DecidableEq e] [DecidableEq a] :
    DecidableEq (Except e a)
  | Except.ok x, Except.ok y =>
    if h : x = y then isTrue (by rw [h])
    else isFalse (by intro hh; cases hh; exact h rfl)
  | Except.ok _, Except.error _ => isFalse (by intro hh; cases hh)
  | Except.error _, Except.ok _ => isFalse (by intro hh; cases hh)
  | Except.error x, Except.error y =>
    if h : x = y then isTrue (by rw [h])
    else isFalse (by intro hh; cases hh; exact h rfl)

instance {e a : Type} [DecidableEq e] [DecidableEq a] : DecidableEq (Except e a) :=
  exceptDecEq

namespace JobSync

/-- Posting record: the `@dataclass Job` of `main.py` (title, url, date,
board, summary).  The `datetime` field is modelled as a `Nat` timestamp;
the pipeline never computes with it beyond formatting. -/
structure Job where
  title : String
  url : String
  date : Nat
  board : String
  summary : String
deriving DecidableEq, Repr

/-- `MAX_APPLY = 3` from the CONFIG block. -/
def MAX_APPLY : Nat := 3

/-- The Python exceptions the modelled fragments can raise:
`TypeError` (comparing two `Job` values, or indexing a non-dict with a
string key) and an HTTP-stack error escaping a retry-wrapped call. -/
inductive PyError
  | typeError
  | httpError
deriving DecidableEq, Repr

/-- Python `<` on the tuples `(score, job)` built in `_rank_jobs`
(line 428).  Tuple comparison finds the first component where the tuples
differ (under `==`) and compares there: unequal scores are compared as
numbers; equal scores fall through to `job < job`, and `Job` is a
dataclass without `order=True`, so Python raises `TypeError` unless the
jobs are equal (in which case the tuples are equal and `<` is `False`).
Cosine scores are idealised as rationals: the comparisons the claims
exercise (`0.9` vs `0.2` vs `0.5`) are exact in both `float` and `ℚ`. -/
def pairLt (a b : ℚ × Job) : Except PyError Bool :=
  if a.1 = b.1 then
    if a.2 = b.2 then Except.ok false else Except.error PyError.typeError
  else Except.ok (decide (a.1 < b.1))

/-- Stable insertion of `x` into an ascending sorted list, propagating the
exception of any comparison: `x` is placed before the first strictly
greater element, hence after any element it ties with. -/
def insertE (x : ℚ × Job) : List (ℚ × Job) → Except PyError (List (ℚ × Job))
  | [] => Except.ok [x]
  | y :: ys =>
    match pairLt x y with
    | Except.error e => Except.error e
    | Except.ok true => Except.ok (x :: y :: ys)
    | Except.ok false =>
      match insertE x ys with
      | Except.error e => Except.error e
      | Except.ok rest => Except.ok (y :: rest)

/-- Stable ascending sort by repeated insertion, propagating comparison
exceptions. -/
def sortAscE (l : List (ℚ × Job)) : Except PyError (List (ℚ × Job)) :=
  l.foldlM (fun acc x => insertE x acc) []

/-- `sorted(scores, reverse=True)` from `_rank_jobs` line 429.  CPython
implements `reverse=True` by reversing the list, sorting ascending with a
stable comparison sort, and reversing again; the sort raises `TypeError`
the first time it compares two tied tuples (distinct jobs).  The model
uses a stable insertion sort in place of Timsort: on the concrete inputs
appearing in the theorems below the comparisons performed on tied
elements, and hence the raise/no-raise outcome and the resulting order,
coincide with CPython's binary-insertion sort. -/
def pySortedRev (l : List (ℚ × Job)) : Except PyError (List (ℚ × Job)) :=
  match sortAscE l.reverse with
  | Except.error e => Except.error e
  | Except.ok asc => Except.ok asc.reverse

/-- `_rank_jobs` (lines 422-430).  The external embedding service composed
with `_cosine` is abstracted as an oracle giving one similarity score per
posting (`Except.error` when the service is unreachable after the retry
budget or its response unusable, which the un-caught Python code turns
into a raised exception).  The empty-input guard at lines 423-424 returns
before the oracle is ever consulted; otherwise the scores are zipped with
the jobs (`zip` truncates like Python's) and sorted descending. -/
def _rank_jobs (jobs : List Job) (scores : Except Unit (List ℚ)) :
    Except PyError (List Job) :=
  if jobs.isEmpty then Except.ok []
  else
    match scores with
    | Except.error _ => Except.error PyError.httpError
    | Except.ok ss =>
      match pySortedRev (ss.zip jobs) with
      | Except.error e => Except.error e
      | Except.ok ranked => Except.ok (ranked.map Prod.snd)

/-- `_gather` (lines 407-420).  Each connector's outcome is either an
exception (skipped: `return_exceptions=True`) or a batch of postings; a
posting is kept when its url is not in the `SEEN_URLS` set loaded at
start.  Note the source checks only `SEEN_URLS` — it never compares a
posting against earlier postings of the same run. -/
def gatherStep (seen : List String) (acc : List Job)
    (b : Except Unit (List Job)) : List Job :=
  match b with
  | Except.error _ => acc
  | Except.ok js => acc ++ js.filter (fun j => !(seen.contains j.url))

/-- See `gatherStep`: the loop over connector results. -/
def _gather (seen : List String) (batches : List (Except Unit (List Job))) :
    List Job :=
  batches.foldl (gatherStep seen) []

/-- Word characters of the regex `\W` in `_save_letter` line 390,
restricted to the ASCII titles the theorems use (Python's `\w` is
`[A-Za-z0-9_]` plus non-ASCII word characters). -/
def isWordChar (c : Char) : Bool := c.isAlphanum || c = '_'

/-- Worker for `re.sub(r"\W+", "_", s)`: each maximal run of non-word
characters becomes one underscore.  The flag records whether the previous
character belonged to such a run. -/
def sanitizeAux : Bool → List Char → List Char
  | _, [] => []
  | inRun, c :: rest =>
    if isWordChar c then c :: sanitizeAux false rest
    else if inRun then sanitizeAux true rest
    else '_' :: sanitizeAux true rest

/-- `re.sub(r"\W+", "_", title)` from `_save_letter` line 390. -/
def sanitize (s : String) : String := String.mk (sanitizeAux false s.data)

/-- The artifact file name from `_save_letter` (lines 389-392):
`"{today}_{safe}_{board}.md"` with `safe = re.sub(r"\W+","_",title)[:40]`.
`today` (the `dt.date.today()` rendering) is passed in as a string.  The
posting's url does not occur in the name. -/
def _save_letter_name (today : String) (j : Job) : String :=
  today ++ "_" ++ (sanitize j.title).take 40 ++ "_" ++ j.board ++ ".md"

/-- The follow-up journal line `"{eta}||{url}\n"` of `_schedule_followup`
(line 399); the timestamp rendering `eta` is passed in as a string. -/
def followupLine (eta : String) (j : Job) : String :=
  eta ++ "||" ++ j.url ++ "\n"

/-- A JSON value inside a parsed object, as far as the persisting loop
can distinguish them: a string, or any non-string value (null, number,
boolean, array, nested object).  The loop only ever feeds a value to
`path.write_text` (which requires `str` and raises `TypeError`
otherwise) or formats it into a log line (which never raises), so
string-or-not is the whole distinction the source makes. -/
inductive JVal
  | str (s : String)
  | nonStr
deriving DecidableEq, Repr

/-- Lookup in a Python dict modelled as an association list. -/
def lookupKvs (kvs : List (String × JVal)) (k : String) : Option JVal :=
  (kvs.find? (fun e => e.1 == k)).map (fun e => e.2)

/-- Python `k in res` for a dict `res`. -/
def hasKey (kvs : List (String × JVal)) (k : String) : Bool :=
  (lookupKvs kvs k).isSome

/-- Python `res.get(k, d)` for a dict `res`. -/
def pyGet (kvs : List (String × JVal)) (k : String) (d : JVal) : JVal :=
  (lookupKvs kvs k).getD d

/-- What `json.loads` produced from the generation response text, as the
loop at lines 459-468 sees it: the call or the parse raised (caught inside
`_mega_generate`), or a JSON object, or a JSON value that is not an object
(list, string, number) — for the last, `hasMember` records Python's
`"data_error" in res` membership test on that value. -/
inductive RawParse
  | failure
  | objVal (kvs : List (String × JVal))
  | nonObjVal (hasMember : Bool)
deriving DecidableEq, Repr

/-- Result of `_mega_generate` as consumed by the loop. -/
inductive GenResult
  | obj (kvs : List (String × JVal))
  | nonObj (hasMember : Bool)
deriving DecidableEq, Repr

/-- `_mega_generate` (lines 349-380): any exception from the chat call or
from `json.loads` is caught and becomes a dict with a `data_error` key;
a successfully parsed value is returned as-is, whether or not it is an
object. -/
def _mega_generate : RawParse → GenResult
  | RawParse.failure => GenResult.obj [("data_error", JVal.str "parse error")]
  | RawParse.objVal kvs => GenResult.obj kvs
  | RawParse.nonObjVal b => GenResult.nonObj b

/-- Whether `res.get("cover_letter", "")` yields a `str` for this object:
the condition under which `path.write_text(letter)` succeeds instead of
raising `TypeError` (an absent key falls back to the string default). -/
def letterIsStr (kvs : List (String × JVal)) : Bool :=
  match pyGet kvs "cover_letter" (JVal.str "") with
  | JVal.str _ => true
  | JVal.nonStr => false

/-- A generation result the loop carries through to a written artifact: a
JSON object with no `data_error` key whose `cover_letter` value, when
present, is a string.  A non-object result is never accepted, and a
non-string letter raises before anything is written (see `processOne`). -/
def isAccepted : GenResult → Bool
  | GenResult.obj kvs => !(hasKey kvs "data_error") && letterIsStr kvs
  | GenResult.nonObj _ => false

/-- A generation result the loop handles without raising: a JSON object
that either carries `data_error` (printed and skipped) or whose
`cover_letter` value, when present, is a string (written).  Everything
else — any non-object JSON value, or an object without `data_error`
whose `cover_letter` value is not a string — raises inside the loop. -/
def isHandled : GenResult → Bool
  | GenResult.obj kvs => hasKey kvs "data_error" || letterIsStr kvs
  | GenResult.nonObj _ => false

/-- Overwriting insert into the artifact directory, modelled as an
association list from file name to content: `path.write_text` replaces
whatever file was there. -/
def insertStore (s : List (String × String)) (k v : String) :
    List (String × String) :=
  (k, v) :: s.filter (fun e => !(e.1 == k))

/-- Content of the artifact file with name `k`, if present. -/
def lookupStore (s : List (String × String)) (k : String) : Option String :=
  (s.find? (fun e => e.1 == k)).map (fun e => e.2)

/-- Python `set.add` on the seen-url set, represented as a duplicate-free
list. -/
def pyAddSet (s : List String) (u : String) : List String :=
  if s.contains u then s else s ++ [u]

/-- State threaded through the persisting loop of `main` (lines 459-468):
the artifact directory, the chronological log of `write_text` calls, the
follow-up journal (newest line first, as `_schedule_followup` prepends),
and the in-memory `SEEN_URLS` set. -/
structure PState where
  artifacts : List (String × String)
  writes : List (String × String)
  followups : List String
  seen : List String
deriving DecidableEq, Repr

/-- One iteration of the loop at lines 459-468.  A dict containing
`data_error` is printed and skipped (`continue`): no artifact, no
follow-up, no seen-url, whatever its values are (they are only formatted
into the print, which never raises).  A dict without it takes
`letter = res.get("cover_letter", "")`: when that value is a string (or
the key is absent, giving the string default), the artifact is written,
a follow-up line is prepended and the url is added to `SEEN_URLS`; when
it is any non-string JSON value, `path.write_text(letter)` raises
`TypeError` — its `isinstance` check precedes opening the file, so the
loop aborts with no artifact effect.  A parsed value that is not a dict
raises before any effect as well: `res["data_error"]` (inside the
failure print) is a `TypeError` on a list or string, and `res.get` is an
`AttributeError` otherwise.  Both raises are modelled as `none`. -/
def processOne (today eta : String) (st : PState) (p : Job × GenResult) :
    Option PState :=
  match p.2 with
  | GenResult.nonObj _ => none
  | GenResult.obj kvs =>
    if hasKey kvs "data_error" then some st
    else
      match pyGet kvs "cover_letter" (JVal.str "") with
      | JVal.nonStr => none
      | JVal.str letter =>
        let fname := _save_letter_name today p.1
        some
          { artifacts := insertStore st.artifacts fname letter
            writes := st.writes ++ [(fname, letter)]
            followups := followupLine eta p.1 :: st.followups
            seen := pyAddSet st.seen p.1.url }

/-- The whole `for job, res in zip(chosen, results)` loop.  The boolean
records whether an iteration raised; a raise aborts the loop (and, in
`main`, the rest of the run), leaving the state accumulated so far. -/
def processChosen (today eta : String) :
    List (Job × GenResult) → PState → PState × Bool
  | [], st => (st, false)
  | p :: ps, st =>
    match processOne today eta st p with
    | none => (st, true)
    | some st1 => processChosen today eta ps st1

/-- Observable events of one run of `main`: the lock-contention message
(line 436), the "No new jobs." report (line 449), the call into the
embedding/scoring collaborator (`_embed`, reached from `_rank_jobs`), the
per-posting calls into the generation collaborator (`_mega_generate`,
line 457), and the final "All done." report (line 471). -/
inductive Event
  | printLocked
  | printNoNewJobs
  | embedCall
  | generateCall (j : Job)
  | printDone
deriving DecidableEq, Repr

/-- How one invocation of `main` ends: the lock was already held (clean
no-op), the early "No new jobs." return, an uncaught exception
propagating out of `main`, or normal completion. -/
inductive Outcome
  | lockedNoop
  | noNewJobs
  | crashed
  | completed
deriving DecidableEq, Repr

/-- Environment of one run: the dedup-store content loaded at start
(`SEEN_URLS`), the per-connector outcomes, the scoring oracle (the
similarity score list produced by `_embed` + `_cosine`, or its failure),
the generation oracle, and the string renderings of today's date and of
the follow-up timestamp. -/
structure Env where
  seen0 : List String
  batches : List (Except Unit (List Job))
  scores : Except Unit (List ℚ)
  gen : Job → GenResult
  today : String
  eta : String

/-- Everything observable when the process exits: whether the lock file
still exists, the event log, the final loop state, the dedup-store file
content (as the list of urls it encodes) and the outcome. -/
structure RunOut where
  lockPresent : Bool
  events : List Event
  final : PState
  seenFile : List String
  outcome : Outcome

/-- Lexicographic code-point comparison of character lists: Python's `<`
on strings. -/
def charListLt : List Char → List Char → Bool
  | [], [] => false
  | [], _ :: _ => true
  | _ :: _, [] => false
  | c :: cs, d :: ds =>
    if c < d then true else if d < c then false else charListLt cs ds

/-- Python `<` on strings. -/
def strLt (a b : String) : Bool := charListLt a.data b.data

/-- Sorted insertion used to model Python's `sorted` on strings
(code-point lexicographic). -/
def insertSortedStr (x : String) : List String → List String
  | [] => [x]
  | y :: ys => if strLt x y then x :: y :: ys else y :: insertSortedStr x ys

/-- Python `sorted(seen)` on the url set. -/
def sortStrings (l : List String) : List String :=
  l.foldr insertSortedStr []

/-- The initial loop state of a run: nothing written yet, the follow-up
journal tracked relative to its pre-run content, and `SEEN_URLS` as
loaded from the store. -/
def initialP (seen0 : List String) : PState :=
  { artifacts := [], writes := [], followups := [], seen := seen0 }

/-- `main` (lines 432-474), as a function of the run's environment and of
whether the lock file already exists.

Control flow translated from the source:
* lock creation with `O_CREAT | O_EXCL` fails when the file exists — the
  run prints the locked message and returns (lines 433-437);
* otherwise the lock file now exists; `_gather` runs; an empty result
  prints "No new jobs." and returns **from inside the `async with`
  block**, so the `os.close`/`os.remove` at lines 473-474 do not run and
  the lock file remains (lines 447-450);
* `_rank_jobs` runs; an exception from the scoring call propagates out of
  `main` uncaught — lines 473-474 are again skipped (line 452);
* the top `MAX_APPLY` ranked postings are selected and all generation
  calls are issued (`asyncio.gather`, line 457) before the persisting
  loop starts;
* the loop may raise on a non-object result, aborting the run before
  `_save_seen` (lines 459-468);
* on full success `_save_seen(SEEN_URLS)` persists the sorted url set,
  "All done." is printed, and only then are lines 473-474 reached, which
  close and remove the lock file. -/
def runMain (env : Env) (alreadyLocked : Bool) : RunOut :=
  if alreadyLocked then
    { lockPresent := true
      events := [Event.printLocked]
      final := initialP env.seen0
      seenFile := env.seen0
      outcome := Outcome.lockedNoop }
  else
    let jobs := _gather env.seen0 env.batches
    if jobs.isEmpty then
      { lockPresent := true
        events := [Event.printNoNewJobs]
        final := initialP env.seen0
        seenFile := env.seen0
        outcome := Outcome.noNewJobs }
    else
      match _rank_jobs jobs env.scores with
      | Except.error _ =>
        { lockPresent := true
          events := [Event.embedCall]
          final := initialP env.seen0
          seenFile := env.seen0
          outcome := Outcome.crashed }
      | Except.ok ranked =>
        let chosen := ranked.take MAX_APPLY
        let genEvents := chosen.map Event.generateCall
        let r := processChosen env.today env.eta
          (chosen.map (fun j => (j, env.gen j))) (initialP env.seen0)
        if r.2 then
          { lockPresent := true
            events := Event.embedCall :: genEvents
            final := r.1
            seenFile := env.seen0
            outcome := Outcome.crashed }
        else
          { lockPresent := false
            events := Event.embedCall :: genEvents ++ [Event.printDone]
            final := r.1
            seenFile := sortStrings r.1.seen
            outcome := Outcome.completed }

/-- Retry policy of a `tenacity.retry` decorator:
`stop_after_attempt(maxAttempts)` and
`wait_exponential(multiplier, min, max)`. -/
structure RetryPolicy where
  maxAttempts : Nat
  multiplier : Nat
  waitMin : Nat
  waitMax : Nat
deriving DecidableEq, Repr

/-- `tenacity.wait_exponential`: the wait after attempt `n` is
`multiplier * 2^(n-1)` clamped into `[waitMin, waitMax]`. -/
def waitExp (p : RetryPolicy) (n : Nat) : Nat :=
  max p.waitMin (min (p.multiplier * 2 ^ (n - 1)) p.waitMax)

/-- The decorator of `_get_html` (lines 227-229):
`wait_exponential(multiplier=1, min=2, max=20)`, `stop_after_attempt(3)`. -/
def getHtmlPolicy : RetryPolicy :=
  { maxAttempts := 3, multiplier := 1, waitMin := 2, waitMax := 20 }

/-- The decorator of `_openai_post` (lines 321-323):
`wait_exponential(multiplier=2, min=4, max=60)`, `stop_after_attempt(4)`. -/
def openaiPolicy : RetryPolicy :=
  { maxAttempts := 4, multiplier := 2, waitMin := 4, waitMax := 60 }

/-- Retry loop of `tenacity`: attempt `n` runs the call; success returns
its value, failure retries until the allowed number of attempts
(`fuel`) is spent, after which the last failure escapes (`RetryError`).
Returns the call's result together with the index of the last attempt
made. -/
def runRetryAux (call : Nat → Option α) : Nat → Nat → Option α × Nat
  | 0, n => (none, n)
  | 1, n => (call n, n)
  | fuel + 2, n =>
    match call n with
    | some a => (some a, n)
    | none => runRetryAux call (fuel + 1) (n + 1)

/-- A retry-decorated call under policy `p`: attempts are numbered from 1
and at most `p.maxAttempts` are made. -/
def runRetry (p : RetryPolicy) (call : Nat → Option α) : Option α × Nat :=
  runRetryAux call p.maxAttempts 1

/-- The two files `_save_seen` touches: the backing file `seen.json` and
the temporary file `seen.tmp` (`SEEN_FILE.with_suffix(".tmp")` — a
distinct path).  `none` means the file does not exist. -/
structure SeenFS where
  backing : Option String
  tmp : Option String
deriving DecidableEq, Repr

/-- File-system steps of `_save_seen` (lines 208-211): creating the
temporary file, appending a chunk of data to it (`write_text` need not be
atomic, so the write is modelled as any chunking of the content), and
`Path.replace` — `os.replace`, an atomic rename of the temporary file
over the backing file. -/
inductive FsStep
  | createTmp
  | appendTmp (chunk : String)
  | renameTmpOverBacking
deriving DecidableEq, Repr

/-- Effect of one file-system step. -/
def stepFs (fs : SeenFS) : FsStep → SeenFS
  | FsStep.createTmp => { fs with tmp := some "" }
  | FsStep.appendTmp c => { fs with tmp := fs.tmp.map (fun t => t ++ c) }
  | FsStep.renameTmpOverBacking => { backing := fs.tmp, tmp := none }

/-- Minimal `json.dumps` escaping for the strings the claims use:
backslash and double quote (control characters and non-ASCII do not occur
in the urls considered). -/
def jsonEscape (s : String) : String :=
  String.mk (s.data.foldr
    (fun c acc =>
      if c = '\\' then '\\' :: '\\' :: acc
      else if c = '"' then '\\' :: '"' :: acc
      else c :: acc) [])

/-- `json.dumps(sorted(seen))`: the sorted urls as a JSON array with
`", "` separators (the `json.dumps` default). -/
def encodeSeen (seen : List String) : String :=
  "[" ++ String.intercalate ", "
    ((sortStrings seen).map (fun u => "\"" ++ jsonEscape u ++ "\"")) ++ "]"

/-- The step sequence `_save_seen` executes: write the encoded set to the
temporary file (in any number of chunks), then atomically rename it over
the backing file. -/
def saveSeenProg (chunks : List String) : List FsStep :=
  FsStep.createTmp :: chunks.map FsStep.appendTmp ++ [FsStep.renameTmpOverBacking]

/-- The sequence of file-system states a step list passes through from
`fs`: the initial state and the state after each step. -/
def runFsStates (fs : SeenFS) : List FsStep → List SeenFS
  | [] => [fs]
  | s :: ss => fs :: runFsStates (stepFs fs s) ss

/-- Every file-system state `_save_seen` passes through, starting from
`fs0`: the initial state and the state after each step. -/
def saveSeenStates (fs0 : SeenFS) (chunks : List String) : List SeenFS :=
  runFsStates fs0 (saveSeenProg chunks)

/-- Concatenation of the chunks a possibly non-atomic `write_text` emits. -/
def concatChunks (l : List String) : String := l.foldr (fun a b => a ++ b) ""

/-- The pairs of the persisting loop whose result the loop accepts. -/
def acceptedOf (pairs : List (Job × GenResult)) : List (Job × GenResult) :=
  pairs.filter (fun p => isAccepted p.2)

/-- The letter text the loop writes for an accepted result:
`res.get("cover_letter", "")` (the empty string both for an absent key
and, vacuously, for the never-written non-string cases). -/
def coverOf : GenResult → String
  | GenResult.obj kvs =>
    match pyGet kvs "cover_letter" (JVal.str "") with
    | JVal.str s => s
    | JVal.nonStr => ""
  | GenResult.nonObj _ => ""

/-- A family of pairwise distinct example postings. -/
def exJob (i : Nat) : Job :=
  { title := "Title" ++ toString i, url := "https://jobs.example/" ++ toString i,
    date := i, board := "Board", summary := "summary" }

/-- Run environment where the only discovered posting is already in the
dedup store, so `_gather` returns nothing and `main` takes the early
"No new jobs." return. -/
def envNoNew : Env :=
  { seen0 := ["https://jobs.example/0"]
    batches := [Except.ok [exJob 0], Except.error ()]
    scores := Except.ok []
    gen := fun _ => GenResult.obj []
    today := "2026-10-12"
    eta := "2026-10-14T00:00:00" }

/-- Run environment with one fresh posting and a scoring collaborator
that fails after its retry budget. -/
def envScoreFail : Env :=
  { seen0 := []
    batches := [Except.ok [exJob 0]]
    scores := Except.error ()
    gen := fun _ => GenResult.obj [("cover_letter", JVal.str "letter")]
    today := "2026-10-12"
    eta := "2026-10-14T00:00:00" }

/-- Run environment whose connectors all fail, so the filtered set is
empty. -/
def envAllFail : Env :=
  { seen0 := []
    batches := [Except.error (), Except.error ()]
    scores := Except.error ()
    gen := fun _ => GenResult.nonObj false
    today := "2026-10-12"
    eta := "2026-10-14T00:00:00" }

/-- Two distinct postings, returned by two different connectors, sharing
one url. -/
def dupJobA : Job :=
  { title := "Python developer", url := "https://jobs.example/dup",
    date := 0, board := "Craigslist-newyork", summary := "a" }

/-- See `dupJobA`: same url, different posting. -/
def dupJobB : Job :=
  { title := "Senior Python developer", url := "https://jobs.example/dup",
    date := 1, board := "RemoteOK", summary := "b" }

/-- Two postings on the same day whose titles sanitize to the same file
name and whose urls differ. -/
def colJob1 : Job :=
  { title := "hello world", url := "https://jobs.example/first",
    date := 0, board := "WWR", summary := "" }

/-- See `colJob1`. -/
def colJob2 : Job :=
  { title := "hello,world", url := "https://jobs.example/second",
    date := 1, board := "WWR", summary := "" }

/-- Three selected postings with well-formed generation results, the
middle one an error record. -/
def genPairs3 : List (Job × GenResult) :=
  [(exJob 1, GenResult.obj [("cover_letter", JVal.str "letter one")]),
   (exJob 2, GenResult.obj [("data_error", JVal.str "missing required data")]),
   (exJob 3, GenResult.obj [("cover_letter", JVal.str "letter three")])]

/-- Three selected postings where the middle generation response parses
to a JSON array (valid JSON, not an object) and the other two succeed. -/
def cexPairs3 : List (Job × GenResult) :=
  [(exJob 1, GenResult.obj [("cover_letter", JVal.str "letter one")]),
   (exJob 2, _mega_generate (RawParse.nonObjVal false)),
   (exJob 3, GenResult.obj [("cover_letter", JVal.str "letter three")])]

/-- Three selected postings where the middle generation response is a
JSON object without `data_error` whose `cover_letter` value is `null`
(any non-string JSON value behaves the same) and the other two succeed. -/
def nullPairs3 : List (Job × GenResult) :=
  [(exJob 1, GenResult.obj [("cover_letter", JVal.str "letter one")]),
   (exJob 2, GenResult.obj [("cover_letter", JVal.nonStr)]),
   (exJob 3, GenResult.obj [("cover_letter", JVal.str "letter three")])]

/-! ## Theorems -/

theorem gather_foldl (seen : List String) :
    ∀ (batches : List (Except Unit (List Job))) (acc : List Job),
      batches.foldl (gatherStep seen) acc =
        acc ++ (batches.map (fun b => b.toOption.getD [])).flatten.filter
          (fun j => !(seen.contains j.url)) := by
  intro batches
  induction batches with
  | nil => intro acc; simp
  | cons b bs ih =>
    intro acc
    cases b with
    | error e => simp [gatherStep, ih, Except.toOption]
    | ok js =>
      simp [gatherStep, ih, Except.toOption, List.filter_append,
        List.append_assoc]

/-- C1 (against the claim): a run that acquires the process lock and then
finds no new postings returns from inside the client context, so the
`os.close`/`os.remove` at lines 473-474 never run and the lock file is
still present when the process exits — the lock is not released on the
early "no new jobs" exit path. -/
theorem C1_lock_leaked_on_early_exit :
    (runMain envNoNew false).outcome = Outcome.noNewJobs ∧
    (runMain envNoNew false).lockPresent = true := by decide

/-- C2 (against the claim): on the spec's own example scores
`[0.9, 0.2, 0.9, 0.5]` the ranking step raises `TypeError` instead of
returning the stable order `[0, 2, 3, 1]`: `sorted(scores, reverse=True)`
compares the tuples `(0.9, job0)` and `(0.9, job2)` and falls through to
comparing the two `Job` dataclass values, which define no ordering. -/
theorem C2_tie_comparison_raises :
    _rank_jobs [exJob 0, exJob 1, exJob 2, exJob 3]
      (Except.ok [9/10, 2/10, 9/10, 5/10]) = Except.error PyError.typeError ∧
    _rank_jobs [exJob 0, exJob 1, exJob 2, exJob 3]
      (Except.ok [9/10, 2/10, 9/10, 5/10]) ≠
      Except.ok [exJob 0, exJob 2, exJob 3, exJob 1] := by
  have h9 : (9 : ℚ)/10 = mkRat 9 10 := by norm_num [Rat.mkRat_eq_div]
  have h2 : (2 : ℚ)/10 = mkRat 2 10 := by norm_num [Rat.mkRat_eq_div]
  have h5 : (5 : ℚ)/10 = mkRat 5 10 := by norm_num [Rat.mkRat_eq_div]
  rw [h9, h2, h5]
  decide

/-- C4 counterexample: two connectors each return a fresh posting with
the same url; `_gather` keeps both, so the url is not unique in the
working set — in-run duplicates are not dropped. -/
theorem C4_cex_duplicate_urls_kept :
    _gather [] [Except.ok [dupJobA], Except.ok [dupJobB]] =
      [dupJobA, dupJobB] ∧
    dupJobA.url = dupJobB.url ∧ dupJobA ≠ dupJobB := by decide

/-- C4 (amended): the filtering step drops exactly the postings whose url
is in the dedup store at load time — the working set is the concatenation
of the successful batches filtered against the store only, so every
kept posting is store-fresh but duplicate urls arising within the same
run are all kept. -/
theorem C4_filtering_only_against_store (seen : List String)
    (batches : List (Except Unit (List Job))) :
    _gather seen batches =
      (batches.map (fun b => b.toOption.getD [])).flatten.filter
        (fun j => !(seen.contains j.url)) ∧
    (_gather seen batches).all (fun j => !(seen.contains j.url)) = true := by
  have h := gather_foldl seen batches []
  have h0 : _gather seen batches =
      (batches.map (fun b => b.toOption.getD [])).flatten.filter
        (fun j => !(seen.contains j.url)) := by
    rw [_gather, h, List.nil_append]
  refine ⟨h0, ?_⟩
  rw [h0, List.all_eq_true]
  intro x hx
  exact (List.mem_filter.mp hx).2

/-- C3 counterexample: with one fresh posting and a scoring collaborator
that fails, the run does not complete with zero selections — it crashes
(the exception from `_embed` propagates out of `main` uncaught) and the
lock file is still present at process exit. -/
theorem C3_cex_scoring_failure_crashes :
    (runMain envScoreFail false).outcome = Outcome.crashed ∧
    (runMain envScoreFail false).lockPresent = true := by decide

/-- C3 (amended): in every run where some postings survive filtering and
the scoring collaborator fails, the failure is not contained: the run
crashes, making zero selections — no generation call is issued, nothing
is written, the dedup-store file keeps its pre-run content — and the
lock is not released. -/
theorem C3_ranking_failure_propagates (env : Env)
    (hs : env.scores = Except.error ())
    (hj : _gather env.seen0 env.batches ≠ []) :
    (runMain env false).outcome = Outcome.crashed ∧
    (runMain env false).lockPresent = true ∧
    (runMain env false).final.writes = [] ∧
    (runMain env false).seenFile = env.seen0 ∧
    ∀ j, Event.generateCall j ∉ (runMain env false).events := by
  have hje : (_gather env.seen0 env.batches).isEmpty = false := by
    cases hgE : _gather env.seen0 env.batches with
    | nil => exact absurd hgE hj
    | cons a l => rfl
  have hr : _rank_jobs (_gather env.seen0 env.batches) env.scores =
      Except.error PyError.httpError := by
    simp only [_rank_jobs, hje, hs]
    simp
  simp only [runMain, hje, hr]
  refine ⟨by simp, by simp, by simp [initialP], by simp, ?_⟩
  intro j
  simp

/-- C3 witness: the amended statement at the concrete failing-scorer
environment. -/
theorem C3_ranking_failure_witness :
    (runMain envScoreFail false).outcome = Outcome.crashed ∧
    (runMain envScoreFail false).lockPresent = true ∧
    (runMain envScoreFail false).final.writes = [] ∧
    (runMain envScoreFail false).seenFile = envScoreFail.seen0 ∧
    ∀ j, Event.generateCall j ∉ (runMain envScoreFail false).events :=
  C3_ranking_failure_propagates envScoreFail rfl (by decide)

/-- C7: on an empty filtered set the ranker returns an empty sequence no
matter what the scoring oracle would answer (the guard returns before the
collaborator is consulted), and the run's only event is the "No new
jobs." report — the scoring and generation collaborators are never
invoked. -/
theorem C7_empty_input_short_circuit (env : Env)
    (h : _gather env.seen0 env.batches = []) :
    (∀ scores, _rank_jobs [] scores = Except.ok []) ∧
    (runMain env false).events = [Event.printNoNewJobs] ∧
    (runMain env false).outcome = Outcome.noNewJobs ∧
    Event.embedCall ∉ (runMain env false).events ∧
    ∀ j, Event.generateCall j ∉ (runMain env false).events := by
  have hje : (_gather env.seen0 env.batches).isEmpty = true := by
    rw [h]; rfl
  refine ⟨fun scores => rfl, ?_, ?_, ?_, ?_⟩ <;> simp only [runMain, hje] <;> simp

/-- C7 witness: the short-circuit at a concrete environment whose
connectors all fail, leaving zero postings after filtering. -/
theorem C7_short_circuit_witness :
    (∀ scores, _rank_jobs [] scores = Except.ok []) ∧
    (runMain envAllFail false).events = [Event.printNoNewJobs] ∧
    (runMain envAllFail false).outcome = Outcome.noNewJobs ∧
    Event.embedCall ∉ (runMain envAllFail false).events ∧
    ∀ j, Event.generateCall j ∉ (runMain envAllFail false).events :=
  C7_empty_input_short_circuit envAllFail (by decide)

theorem runFsStates_ne_nil (fs : SeenFS) (steps : List FsStep) :
    runFsStates fs steps ≠ [] := by
  cases steps <;> simp [runFsStates]

theorem getLast?_cons_ne (a : SeenFS) (l : List SeenFS) (h : l ≠ []) :
    (a :: l).getLast? = l.getLast? := by
  cases l with
  | nil => exact absurd rfl h
  | cons x xs => exact List.getLast?_cons_cons

theorem runFs_backing (b : Option String) :
    ∀ (cs : List String) (t : String),
      (∀ s ∈ runFsStates { backing := b, tmp := some t }
          (cs.map FsStep.appendTmp ++ [FsStep.renameTmpOverBacking]),
        s.backing = b ∨ s.backing = some (t ++ concatChunks cs)) ∧
      (runFsStates { backing := b, tmp := some t }
          (cs.map FsStep.appendTmp ++ [FsStep.renameTmpOverBacking])).getLast? =
        some { backing := some (t ++ concatChunks cs), tmp := none } := by
  intro cs
  induction cs with
  | nil =>
    intro t
    have he : t ++ concatChunks [] = t := by
      simp [concatChunks]
    have hunf : runFsStates { backing := b, tmp := some t }
        (([] : List String).map FsStep.appendTmp ++
          [FsStep.renameTmpOverBacking]) =
        [{ backing := b, tmp := some t },
         { backing := some t, tmp := none }] := rfl
    rw [hunf, he]
    constructor
    · intro s hs
      rcases List.mem_cons.mp hs with h | h
      · rw [h]; left; rfl
      · rw [List.mem_singleton.mp h]; right; rfl
    · rfl
  | cons c cs ih =>
    intro t
    have hassoc : t ++ c ++ concatChunks cs = t ++ concatChunks (c :: cs) := by
      rw [String.append_assoc]; rfl
    have hunf : runFsStates { backing := b, tmp := some t }
        ((c :: cs).map FsStep.appendTmp ++ [FsStep.renameTmpOverBacking]) =
        { backing := b, tmp := some t } ::
          runFsStates { backing := b, tmp := some (t ++ c) }
            (cs.map FsStep.appendTmp ++ [FsStep.renameTmpOverBacking]) := rfl
    rw [hunf]
    constructor
    · intro s hs
      rcases List.mem_cons.mp hs with h | h
      · rw [h]; left; rfl
      · rcases (ih (t ++ c)).1 s h with h2 | h2
        · left; exact h2
        · right; rw [h2, hassoc]
    · rw [getLast?_cons_ne _ _ (runFsStates_ne_nil _ _), (ih (t ++ c)).2,
        hassoc]

/-- C5: `_save_seen` writes the encoded url set to the distinct temporary
file `seen.tmp` and then renames it over `seen.json` atomically: however
`write_text`'s content is chunked, every intermediate file-system state
shows the backing file with either its old complete content or the new
complete encoding, and the final state shows the new encoding — a torn
backing file is never observable. -/
theorem C5_save_seen_atomic (fs0 : SeenFS) (seen : List String)
    (chunks : List String) (hc : concatChunks chunks = encodeSeen seen) :
    (∀ s ∈ saveSeenStates fs0 chunks,
        s.backing = fs0.backing ∨ s.backing = some (encodeSeen seen)) ∧
    (saveSeenStates fs0 chunks).getLast? =
      some { backing := some (encodeSeen seen), tmp := none } := by
  have key := runFs_backing fs0.backing chunks ""
  have heq : ("" : String) ++ concatChunks chunks = encodeSeen seen := by
    rw [hc]; simp
  rw [heq] at key
  have hunf : saveSeenStates fs0 chunks =
      fs0 :: runFsStates { backing := fs0.backing, tmp := some "" }
        (chunks.map FsStep.appendTmp ++ [FsStep.renameTmpOverBacking]) := rfl
  constructor
  · intro s hs
    rw [hunf] at hs
    rcases List.mem_cons.mp hs with h | h
    · rw [h]
      left; rfl
    · exact key.1 s h
  · rw [hunf, getLast?_cons_ne _ _ (runFsStates_ne_nil _ _)]
    exact key.2

/-- C5 witness: the atomicity statement at a concrete store state, url
set and two-chunk write. -/
theorem C5_save_seen_witness :
    (∀ s ∈ saveSeenStates { backing := some "[]", tmp := none }
        ["[\"a\"", ", \"b\"]"],
      s.backing = SeenFS.backing { backing := some "[]", tmp := none } ∨
      s.backing = some (encodeSeen ["b", "a"])) ∧
    (saveSeenStates { backing := some "[]", tmp := none }
        ["[\"a\"", ", \"b\"]"]).getLast? =
      some { backing := some (encodeSeen ["b", "a"]), tmp := none } :=
  C5_save_seen_atomic { backing := some "[]", tmp := none } ["b", "a"]
    ["[\"a\"", ", \"b\"]"] (by decide)

set_option maxRecDepth 8000 in
/-- C6 counterexample: of three selected postings, a single malformed
generation response aborts the whole loop instead of being isolated —
shown both for a response parsing to a JSON array (the loop's `res.get`
raises `AttributeError`) and for an object without `data_error` whose
`cover_letter` value is `null` (`path.write_text` raises `TypeError`
before touching the file).  In each scenario only the first posting's
artifact was written; the third posting, whose own generation succeeded,
gets no artifact and no dedup entry, and `_save_seen` is never reached.
The claimed "3 selected with 1 failure yields exactly 2 artifacts and
2 urls added" fails. -/
theorem C6_cex_malformed_result_aborts :
    ((processChosen "2026-10-12" "E" cexPairs3 (initialP [])).2 = true ∧
      (processChosen "2026-10-12" "E" cexPairs3 (initialP [])).1.writes =
        [(_save_letter_name "2026-10-12" (exJob 1), "letter one")] ∧
      ((processChosen "2026-10-12" "E" cexPairs3 (initialP [])).1.seen.contains
        (exJob 3).url) = false ∧
      isAccepted (cexPairs3.get ⟨2, by decide⟩).2 = true) ∧
    ((processChosen "2026-10-12" "E" nullPairs3 (initialP [])).2 = true ∧
      (processChosen "2026-10-12" "E" nullPairs3 (initialP [])).1.writes =
        [(_save_letter_name "2026-10-12" (exJob 1), "letter one")] ∧
      ((processChosen "2026-10-12" "E" nullPairs3 (initialP [])).1.seen.contains
        (exJob 3).url) = false ∧
      hasKey [("cover_letter", JVal.nonStr)] "data_error" = false ∧
      isAccepted (nullPairs3.get ⟨2, by decide⟩).2 = true) := by
  decide

/-- C6 (amended): the persisting loop raises exactly on a result that is
not handled — not a JSON object, or an object without `data_error` whose
`cover_letter` value is a non-string — and when every result is handled,
failures are isolated per posting: each `data_error` posting contributes
no artifact write, no follow-up entry and no seen-url while the others
are processed unaffected, each accepted posting contributing exactly its
own artifact, follow-up line and url. -/
theorem C6_handled_results_isolated (today eta : String)
    (pairs : List (Job × GenResult)) (st : PState) :
    (processChosen today eta pairs st).2 =
      !(pairs.all (fun p => isHandled p.2)) ∧
    (pairs.all (fun p => isHandled p.2) = true →
      (processChosen today eta pairs st).1.writes =
        st.writes ++ (acceptedOf pairs).map
          (fun p => (_save_letter_name today p.1, coverOf p.2)) ∧
      (processChosen today eta pairs st).1.followups =
        ((acceptedOf pairs).map (fun p => followupLine eta p.1)).reverse ++
          st.followups ∧
      (processChosen today eta pairs st).1.seen =
        (acceptedOf pairs).foldl (fun s p => pyAddSet s p.1.url) st.seen) := by
  induction pairs generalizing st with
  | nil =>
    constructor
    · simp [processChosen]
    · intro hall
      simp [processChosen, acceptedOf]
  | cons p ps ih =>
    obtain ⟨j, r⟩ := p
    cases r with
    | nonObj hb =>
      constructor
      · simp [processChosen, processOne, isHandled]
      · intro hall
        simp [isHandled] at hall
    | obj kvs =>
      cases hd : hasKey kvs "data_error" with
      | true =>
        have hh : isHandled (GenResult.obj kvs) = true := by
          simp [isHandled, hd]
        have hstep : processChosen today eta
            ((j, GenResult.obj kvs) :: ps) st =
            processChosen today eta ps st := by
          simp [processChosen, processOne, hd]
        have hacc : acceptedOf ((j, GenResult.obj kvs) :: ps) =
            acceptedOf ps := by
          simp [acceptedOf, isAccepted, hd]
        constructor
        · rw [hstep, (ih st).1]
          simp [hh]
        · intro hall
          simp only [List.all_cons, hh, Bool.true_and] at hall
          rw [hstep, hacc]
          exact (ih st).2 hall
      | false =>
        cases hl : pyGet kvs "cover_letter" (JVal.str "") with
        | nonStr =>
          have hh : isHandled (GenResult.obj kvs) = false := by
            simp [isHandled, letterIsStr, hd, hl]
          have hcr : processChosen today eta
              ((j, GenResult.obj kvs) :: ps) st = (st, true) := by
            simp [processChosen, processOne, hd, hl]
          constructor
          · rw [hcr]
            simp [hh]
          · intro hall
            simp only [List.all_cons, hh, Bool.false_and] at hall
            simp at hall
        | str letter =>
          have hh : isHandled (GenResult.obj kvs) = true := by
            simp [isHandled, letterIsStr, hd, hl]
          have hstep : processChosen today eta
              ((j, GenResult.obj kvs) :: ps) st = processChosen today eta ps
                { artifacts := insertStore st.artifacts
                    (_save_letter_name today j) letter
                  writes := st.writes ++ [(_save_letter_name today j, letter)]
                  followups := followupLine eta j :: st.followups
                  seen := pyAddSet st.seen j.url } := by
            simp [processChosen, processOne, hd, hl]
          have hacc : acceptedOf ((j, GenResult.obj kvs) :: ps) =
              (j, GenResult.obj kvs) :: acceptedOf ps := by
            simp [acceptedOf, isAccepted, letterIsStr, hd, hl]
          have hcov : coverOf (GenResult.obj kvs) = letter := by
            simp [coverOf, hl]
          constructor
          · rw [hstep, (ih _).1]
            simp [hh]
          · intro hall
            simp only [List.all_cons, hh, Bool.true_and] at hall
            obtain ⟨g2, g3, g4⟩ := (ih _).2 hall
            rw [hstep, hacc]
            refine ⟨?_, ?_, ?_⟩
            · rw [g2]
              simp [hcov]
            · rw [g3]
              simp
            · rw [g4]
              rfl

set_option maxRecDepth 8000 in
/-- C6 witness: the boundary theorem at three concrete postings whose
middle result is an error record, together with its evaluation: the loop
does not raise, and exactly the two accepted postings produce artifact
writes and seen-urls. -/
theorem C6_handled_witness :
    ((processChosen "2026-10-12" "E" genPairs3 (initialP [])).2 =
        !(genPairs3.all (fun p => isHandled p.2)) ∧
      (genPairs3.all (fun p => isHandled p.2) = true →
        (processChosen "2026-10-12" "E" genPairs3 (initialP [])).1.writes =
          (initialP []).writes ++ (acceptedOf genPairs3).map
            (fun p => (_save_letter_name "2026-10-12" p.1, coverOf p.2)) ∧
        (processChosen "2026-10-12" "E" genPairs3 (initialP [])).1.followups =
          ((acceptedOf genPairs3).map
            (fun p => followupLine "E" p.1)).reverse ++
            (initialP []).followups ∧
        (processChosen "2026-10-12" "E" genPairs3 (initialP [])).1.seen =
          (acceptedOf genPairs3).foldl (fun s p => pyAddSet s p.1.url)
            (initialP []).seen)) ∧
    (processChosen "2026-10-12" "E" genPairs3 (initialP [])).2 = false ∧
    (processChosen "2026-10-12" "E" genPairs3 (initialP [])).1.writes.length
      = 2 ∧
    (processChosen "2026-10-12" "E" genPairs3 (initialP [])).1.seen.length
      = 2 :=
  ⟨C6_handled_results_isolated "2026-10-12" "E" genPairs3 (initialP []),
    by decide, by decide, by decide⟩

theorem runRetryAux_attempts {a : Type} (call : Nat → Option a) :
    ∀ fuel n, (runRetryAux call (fuel + 1) n).2 ≤ n + fuel := by
  intro fuel
  induction fuel with
  | zero =>
    intro n
    cases hc : call n <;> simp [runRetryAux]
  | succ g ih =>
    intro n
    show (runRetryAux call (g + 2) n).2 ≤ n + (g + 1)
    simp only [runRetryAux]
    cases hc : call n with
    | some v => simp
    | none =>
      have hg := ih (n + 1)
      show (runRetryAux call (g + 1) (n + 1)).2 ≤ n + (g + 1)
      omega

/-- C8: every retry policy has a hard attempt ceiling — a retried call
makes at most 3 attempts under the `_get_html` decorator and at most 4
under the `_openai_post` decorator, whatever the call's failure pattern —
and the exponential waits are bounded: they never exceed the policy's
maximum (20 s and 60 s respectively) and grow monotonically up to that
cap, so no call is retried indefinitely and backoff never grows without
bound. -/
theorem C8_retry_bounded {a : Type} (call : Nat → Option a) :
    (runRetry getHtmlPolicy call).2 ≤ 3 ∧
    (runRetry openaiPolicy call).2 ≤ 4 ∧
    (∀ n, waitExp getHtmlPolicy n ≤ 20 ∧ waitExp openaiPolicy n ≤ 60) ∧
    (∀ n, waitExp getHtmlPolicy n ≤ waitExp getHtmlPolicy (n + 1) ∧
      waitExp openaiPolicy n ≤ waitExp openaiPolicy (n + 1)) := by
  refine ⟨runRetryAux_attempts call 2 1, runRetryAux_attempts call 3 1, ?_, ?_⟩
  · intro n
    constructor
    · show max 2 (min (1 * 2 ^ (n - 1)) 20) ≤ 20
      exact max_le (by omega) (min_le_right _ _)
    · show max 4 (min (2 * 2 ^ (n - 1)) 60) ≤ 60
      exact max_le (by omega) (min_le_right _ _)
  · intro n
    have hp : (2 : Nat) ^ (n - 1) ≤ 2 ^ (n + 1 - 1) :=
      Nat.pow_le_pow_right (by omega) (by omega)
    constructor
    · show max 2 (min (1 * 2 ^ (n - 1)) 20) ≤
        max 2 (min (1 * 2 ^ (n + 1 - 1)) 20)
      exact max_le_max le_rfl (min_le_min (by simpa using hp) le_rfl)
    · show max 4 (min (2 * 2 ^ (n - 1)) 60) ≤
        max 4 (min (2 * 2 ^ (n + 1 - 1)) 60)
      exact max_le_max le_rfl (min_le_min (Nat.mul_le_mul_left 2 hp) le_rfl)

/-- C9: a generation response that parses to a JSON object without a
`data_error` key is treated as accepted even when `cover_letter` is also
absent: `res.get("cover_letter", "")` yields the empty string, so an
artifact file containing the empty string is written, a follow-up line is
prepended, and the posting's url is added to the in-memory dedup set. -/
theorem C9_missing_cover_letter_accepted (today eta : String) (st : PState)
    (j : Job) (kvs : List (String × JVal))
    (h1 : hasKey kvs "data_error" = false)
    (h2 : hasKey kvs "cover_letter" = false) :
    processOne today eta st (j, GenResult.obj kvs) =
      some { artifacts := insertStore st.artifacts
               (_save_letter_name today j) ""
             writes := st.writes ++ [(_save_letter_name today j, "")]
             followups := followupLine eta j :: st.followups
             seen := pyAddSet st.seen j.url } := by
  have h2n : lookupKvs kvs "cover_letter" = none := by
    rcases hl : lookupKvs kvs "cover_letter" with _ | v
    · rfl
    · exfalso
      have hk : hasKey kvs "cover_letter" = true := by simp [hasKey, hl]
      rw [hk] at h2
      simp at h2
  simp [processOne, h1, pyGet, h2n]

/-- C9 witness: the acceptance of a keyless-letter object result at a
concrete posting and state. -/
theorem C9_accepted_witness :
    processOne "2026-10-12" "E" (initialP [])
      (exJob 4, GenResult.obj [("req_map", JVal.str "mapping")]) =
      some { artifacts := insertStore (initialP []).artifacts
               (_save_letter_name "2026-10-12" (exJob 4)) ""
             writes := (initialP []).writes ++
               [(_save_letter_name "2026-10-12" (exJob 4), "")]
             followups := followupLine "E" (exJob 4) ::
               (initialP []).followups
             seen := pyAddSet (initialP []).seen (exJob 4).url } :=
  C9_missing_cover_letter_accepted "2026-10-12" "E" (initialP []) (exJob 4)
    [("req_map", JVal.str "mapping")] (by decide) (by decide)

theorem lookupStore_insert (s : List (String × String)) (k v : String) :
    lookupStore (insertStore s k v) k = some v := by
  simp [lookupStore, insertStore]

/-- C10: artifact file names depend only on the run date, the first 40
characters of the sanitized title and the board — never on the url — so
two accepted postings whose titles sanitize identically and whose boards
match are written to the same file name, and after the loop the file at
that name holds the second posting's letter: the second write overwrote
the first. -/
theorem C10_artifact_name_ignores_url (today eta : String) (j1 j2 : Job)
    (l1 l2 : String) (st : PState)
    (ht : (sanitize j1.title).take 40 = (sanitize j2.title).take 40)
    (hb : j1.board = j2.board) :
    _save_letter_name today j1 = _save_letter_name today j2 ∧
    (processChosen today eta
        [(j1, GenResult.obj [("cover_letter", JVal.str l1)]),
         (j2, GenResult.obj [("cover_letter", JVal.str l2)])] st).2 = false ∧
    lookupStore (processChosen today eta
        [(j1, GenResult.obj [("cover_letter", JVal.str l1)]),
         (j2, GenResult.obj [("cover_letter", JVal.str l2)])] st).1.artifacts
      (_save_letter_name today j1) = some l2 := by
  have hname : _save_letter_name today j1 = _save_letter_name today j2 := by
    simp only [_save_letter_name]
    rw [ht, hb]
  refine ⟨hname, rfl, ?_⟩
  show lookupStore
      (insertStore (insertStore st.artifacts (_save_letter_name today j1) l1)
        (_save_letter_name today j2) l2)
      (_save_letter_name today j1) = some l2
  rw [hname]
  exact lookupStore_insert _ _ _

set_option maxRecDepth 4000 in
/-- C10 witness: two concrete postings, "hello world" and "hello,world"
on the same board with different urls, produce the same artifact file
name, and the surviving content of that file is the second letter. -/
theorem C10_collision_witness :
    (_save_letter_name "2026-10-12" colJob1 =
        _save_letter_name "2026-10-12" colJob2 ∧
      (processChosen "2026-10-12" "E"
          [(colJob1, GenResult.obj [("cover_letter", JVal.str "first letter")]),
           (colJob2, GenResult.obj [("cover_letter", JVal.str "second letter")])]
          (initialP [])).2 = false ∧
      lookupStore (processChosen "2026-10-12" "E"
          [(colJob1, GenResult.obj [("cover_letter", JVal.str "first letter")]),
           (colJob2, GenResult.obj [("cover_letter", JVal.str "second letter")])]
          (initialP [])).1.artifacts
        (_save_letter_name "2026-10-12" colJob1) = some "second letter") ∧
    colJob1.url ≠ colJob2.url :=
  ⟨C10_artifact_name_ignores_url "2026-10-12" "E" colJob1 colJob2
      "first letter" "second letter" (initialP []) (by decide) (by decide),
    by decide⟩

end JobSync
